import Mathlib

/-!
Shallow embedding of the notification subsystem of the Adion framework
(src/js/notifications.js): the `NotificationManager` registry (an
insertion-ordered map of instances with a `maxNotifications` bound and an
oldest-first eviction on overflow), the `Notification` instance lifecycle
(create / open / confirm / deny / close / destroy, an auto-close timer, a
per-instance completion promise), the global escape-key and outside-click
handlers, and the queue / processQueue drain path.

Modelling conventions:
* Instance identifiers are list positions.  The source draws random string
  ids and stores instances in a JS `Map`, which iterates in insertion
  order; entries are never re-inserted, so insertion order coincides with
  creation order.  Destroyed instances are kept in the list with
  `inRegistry := false` (the JS object outlives its map entry), so map
  iteration order is the list order restricted to `inRegistry`.
* DOM construction, CSS classes and focus handling are not modelled; the
  lifecycle hooks the source invokes around them are recorded in a `log`
  ghost field, and a hook configured to throw aborts the remaining
  statements of the surrounding method, exactly as the un-guarded calls in
  the source do.
* `setTimeout` deadlines (the auto-close timer, the destroy delay after the
  closing animation, the settlement of a Promise returned by a
  preConfirm/preDeny handler) are modelled as explicitly armed flags
  consumed by separate events, since all source callbacks run on the
  single-threaded event loop.
* A JS promise settles at most once: `resolveJS` / `rejectJS` on an already
  settled promise are no-ops, as in JS.  Thrown errors are error codes
  (`Option Nat`); hook throws carry code 0.
-/

/-- Outcome record delivered through an instance's completion promise.  The
source resolves with objects of the shapes `{isConfirmed: true}`,
`{isConfirmed: true, value}`, `{isDenied: true}` and
`{isDenied: true, value}`; an absent key reads as `undefined`, modelled by
the `false` / `none` defaults. -/
structure Outcome where
  isConfirmed : Bool := false
  isDenied : Bool := false
  value : Option Nat := none
deriving DecidableEq, Repr

/-- State of a JS promise: pending until its first resolve or reject. -/
inductive PromiseState
  | pending
  | resolvedWith (o : Outcome)
  | rejectedWith (e : Nat)
deriving DecidableEq, Repr

/-- JS `resolve`: settles a pending promise, no-op afterwards. -/
def PromiseState.resolveJS : PromiseState → Outcome → PromiseState
  | .pending, o => .resolvedWith o
  | p, _ => p

/-- JS `reject`: settles a pending promise, no-op afterwards. -/
def PromiseState.rejectJS : PromiseState → Nat → PromiseState
  | .pending, e => .rejectedWith e
  | p, _ => p

/-- A lifecycle hook slot in the option bag: absent (`null` in the source)
or present, and a present hook either returns normally or throws when
invoked. -/
structure Hook where
  present : Bool := false
  throws : Bool := false
deriving DecidableEq, Repr

/-- Which hook slot an invocation came from, for the invocation log. -/
inductive HookTag
  | didRender
  | willOpen
  | didOpen
  | willClose
  | didClose
  | didDestroy
deriving DecidableEq, Repr

/-- Eventual fate of the Promise returned by a preConfirm / preDeny
handler. -/
inductive Fate
  | success (v : Option Nat)
  | failure (e : Nat)
deriving DecidableEq, Repr

/-- Behaviour of the `preConfirm` / `preDeny` option: absent (`null`),
returning a plain value, or returning a Promise with the given eventual
fate. -/
inductive PreKind
  | noPre
  | sync (v : Option Nat)
  | deferred (fate : Fate)
deriving DecidableEq, Repr

/-- The slice of the `defaultOptions` bag (lines 34-102 of the source) that
the modelled behaviour reads, with the source's default values. -/
structure Options where
  timer : Option Nat := none
  allowOutsideClick : Bool := true
  allowEscapeKey : Bool := true
  animation : Bool := true
  animationDuration : Nat := 300
  preConfirm : PreKind := .noPre
  preDeny : PreKind := .noPre
  didRender : Hook := {}
  willOpen : Hook := {}
  didOpen : Hook := {}
  willClose : Hook := {}
  didClose : Hook := {}
  didDestroy : Hook := {}
deriving DecidableEq, Repr

/-- One `Notification` instance (constructor, lines 256-275).  `timerArmed`
stands for a live auto-close `setTimeout`; `pendingDestroy` for the destroy
`setTimeout` scheduled by an animated close; `awaitingPreConfirm` /
`awaitingPreDeny` for a continuation attached to a Promise returned by the
preConfirm / preDeny handler; `inRegistry` for membership in the manager's
map. -/
structure NotifState where
  options : Options
  isOpen : Bool := false
  isClosing : Bool := false
  timerArmed : Bool := false
  pendingDestroy : Bool := false
  awaitingPreConfirm : Bool := false
  awaitingPreDeny : Bool := false
  inRegistry : Bool := false
  promise : PromiseState := .pending
deriving DecidableEq, Repr

/-- The `NotificationManager` singleton state (constructor, lines 27-105):
all instances ever constructed in creation order, the pending-request
array `this.queue`, the `isProcessing` flag, and the bound
`maxNotifications = 5`.  `pendingCont` records the index whose promise the
drain loop's `.then` continuation is attached to; `log` is the ghost trace
of hook invocations. -/
structure ManagerState where
  notifs : List NotifState := []
  queueArr : List Options := []
  isProcessing : Bool := false
  maxNotifications : Nat := 5
  pendingCont : Option Nat := none
  log : List (Nat × HookTag) := []
deriving DecidableEq, Repr

/-- The manager state right after construction. -/
def initialManager : ManagerState := {}

/-- Look an instance up by creation index. -/
def getNotif (m : ManagerState) (i : Nat) : Option NotifState :=
  m.notifs[i]?

/-- Replace the instance at a creation index. -/
def setNotif (m : ManagerState) (i : Nat) (n : NotifState) : ManagerState :=
  { m with notifs := m.notifs.set i n }

/-- Size of the manager's map (`this.notifications.size`). -/
def registeredCount (m : ManagerState) : Nat :=
  (m.notifs.filter (fun n => n.inRegistry)).length

/-- Index of the first map entry (`this.notifications.values().next().value`,
line 157): the oldest entry by insertion order still present in the map. -/
def oldestRegistered (m : ManagerState) : Option Nat :=
  m.notifs.findIdx? (fun n => n.inRegistry)

/-- The last map entry (`getTopNotification`, lines 143-146): the most
recently inserted instance still present in the map. -/
def topRegistered (m : ManagerState) : Option (Nat × NotifState) :=
  (m.notifs.enum.filter (fun p => p.2.inRegistry)).getLast?

/-- JS truthiness of `this.options.timer` (line 615): a timer is started
only for a non-null, non-zero duration. -/
def timerTruthy (o : Options) : Bool :=
  match o.timer with
  | some t => t != 0
  | none => false

/-- Whether invoking this hook slot raises: the source calls hooks with no
try/catch, so a present, throwing hook aborts the caller. -/
def hookThrows (h : Hook) : Bool :=
  h.present && h.throws

/-- Record a hook invocation in the ghost log (a hook is invoked only when
present, `if (this.options.x) this.options.x(...)` in the source). -/
def logHook (m : ManagerState) (i : Nat) (tag : HookTag) (h : Hook) : ManagerState :=
  if h.present then { m with log := m.log ++ [(i, tag)] } else m

/-- Notification.destroy (lines 683-705): invoke didClose, remove the DOM
nodes (not modelled), delete the instance from the manager's map, invoke
didDestroy.  A throwing didClose aborts before the map deletion; a throwing
didDestroy aborts after it. -/
def destroyN (m : ManagerState) (i : Nat) : ManagerState × Option Nat :=
  match getNotif m i with
  | none => (m, none)
  | some n =>
    let m1 := logHook m i .didClose n.options.didClose
    if hookThrows n.options.didClose then (m1, some 0)
    else
      let m2 := setNotif m1 i { n with inRegistry := false }
      let m3 := logHook m2 i .didDestroy n.options.didDestroy
      (m3, if hookThrows n.options.didDestroy then some 0 else none)

/-- Notification.close (lines 625-655): no-op when already closing or not
open; otherwise set `isClosing`, invoke willClose, clear the timer, then
either schedule destroy after the closing animation (`pendingDestroy`) or,
with animation off, destroy immediately. -/
def closeN (m : ManagerState) (i : Nat) : ManagerState × Option Nat :=
  match getNotif m i with
  | none => (m, none)
  | some n =>
    if n.isClosing || !n.isOpen then (m, none)
    else
      let m1 := logHook (setNotif m i { n with isClosing := true }) i .willClose n.options.willClose
      if hookThrows n.options.willClose then (m1, some 0)
      else
        if n.options.animation then
          (setNotif m1 i { n with isClosing := true, timerArmed := false, pendingDestroy := true }, none)
        else
          destroyN (setNotif m1 i { n with isClosing := true, timerArmed := false }) i

/-- The destroy `setTimeout` scheduled by an animated close (lines 649-651)
firing: consume the deadline, then run destroy. -/
def destroyTimeoutFire (m : ManagerState) (i : Nat) : ManagerState × Option Nat :=
  match getNotif m i with
  | none => (m, none)
  | some n =>
    if n.pendingDestroy then
      destroyN (setNotif m i { n with pendingDestroy := false }) i
    else (m, none)

/-- The auto-close `setTimeout` armed by startTimer (lines 657-660) firing:
consume the deadline, then call close. -/
def timerExpire (m : ManagerState) (i : Nat) : ManagerState × Option Nat :=
  match getNotif m i with
  | none => (m, none)
  | some n =>
    if n.timerArmed then
      closeN (setNotif m i { n with timerArmed := false }) i
    else (m, none)

/-- NotificationManager.fire (lines 152-162) together with the Notification
constructor (lines 256-275): append a fresh instance, run create (didRender)
and open (willOpen, set `isOpen`, arm the timer, didOpen); on success insert
it into the map, and if the map size now exceeds `maxNotifications`, call
close on the first map entry.  A throwing hook aborts fire before the
registration / eviction steps it precedes.  Returns the state, the new
instance's index (identifying the returned completion promise) and the
propagated error, if any. -/
def fire (m : ManagerState) (opts : Options) : ManagerState × Nat × Option Nat :=
  let i := m.notifs.length
  let m0 := { m with notifs := m.notifs ++ [({ options := opts } : NotifState)] }
  let m1 := logHook m0 i .didRender opts.didRender
  if hookThrows opts.didRender then (m1, i, some 0)
  else
    let m2 := logHook m1 i .willOpen opts.willOpen
    if hookThrows opts.willOpen then (m2, i, some 0)
    else
      let m3 := setNotif m2 i { options := opts, isOpen := true, timerArmed := timerTruthy opts }
      let m4 := logHook m3 i .didOpen opts.didOpen
      if hookThrows opts.didOpen then (m4, i, some 0)
      else
        let m5 := setNotif m4 i
          { options := opts, isOpen := true, timerArmed := timerTruthy opts, inRegistry := true }
        if m5.maxNotifications < registeredCount m5 then
          match oldestRegistered m5 with
          | some j =>
            let c := closeN m5 j
            (c.1, i, c.2)
          | none => (m5, i, none)
        else (m5, i, none)

/-- Notification.confirm (lines 541-563).  With no preConfirm, resolve
`{isConfirmed: true}` and close; with a plain-value preConfirm, resolve
`{isConfirmed: true, value}` and close; with a Promise-returning
preConfirm, only attach a continuation (`awaitingPreConfirm`) — resolution
is deferred to `preConfirmSettle`.  (showLoaderOnConfirm only rewrites DOM
and is not modelled.) -/
def confirmN (m : ManagerState) (i : Nat) : ManagerState × Option Nat :=
  match getNotif m i with
  | none => (m, none)
  | some n =>
    match n.options.preConfirm with
    | .noPre =>
      closeN (setNotif m i { n with promise := n.promise.resolveJS { isConfirmed := true } }) i
    | .sync v =>
      closeN (setNotif m i { n with promise := n.promise.resolveJS { isConfirmed := true, value := v } }) i
    | .deferred _ =>
      (setNotif m i { n with awaitingPreConfirm := true }, none)

/-- Notification.deny (lines 565-587), the mirror image of confirm with
`preDeny` and `{isDenied: true}`. -/
def denyN (m : ManagerState) (i : Nat) : ManagerState × Option Nat :=
  match getNotif m i with
  | none => (m, none)
  | some n =>
    match n.options.preDeny with
    | .noPre =>
      closeN (setNotif m i { n with promise := n.promise.resolveJS { isDenied := true } }) i
    | .sync v =>
      closeN (setNotif m i { n with promise := n.promise.resolveJS { isDenied := true, value := v } }) i
    | .deferred _ =>
      (setNotif m i { n with awaitingPreDeny := true }, none)

/-- Settlement of the Promise returned by preConfirm (the continuation
attached at lines 549-554): on fulfillment, resolve
`{isConfirmed: true, value}` and close; on rejection, reject the completion
promise and do not close. -/
def preConfirmSettle (m : ManagerState) (i : Nat) : ManagerState × Option Nat :=
  match getNotif m i with
  | none => (m, none)
  | some n =>
    if n.awaitingPreConfirm then
      match n.options.preConfirm with
      | .deferred (.success v) =>
        closeN (setNotif m i
          { n with awaitingPreConfirm := false,
                   promise := n.promise.resolveJS { isConfirmed := true, value := v } }) i
      | .deferred (.failure e) =>
        (setNotif m i { n with awaitingPreConfirm := false, promise := n.promise.rejectJS e }, none)
      | _ => (m, none)
    else (m, none)

/-- Settlement of the Promise returned by preDeny (lines 573-578), the
mirror image of `preConfirmSettle`. -/
def preDenySettle (m : ManagerState) (i : Nat) : ManagerState × Option Nat :=
  match getNotif m i with
  | none => (m, none)
  | some n =>
    if n.awaitingPreDeny then
      match n.options.preDeny with
      | .deferred (.success v) =>
        closeN (setNotif m i
          { n with awaitingPreDeny := false,
                   promise := n.promise.resolveJS { isDenied := true, value := v } }) i
      | .deferred (.failure e) =>
        (setNotif m i { n with awaitingPreDeny := false, promise := n.promise.rejectJS e }, none)
      | _ => (m, none)
    else (m, none)

/-- The document-level Escape handler (lines 123-130): close the top map
entry, only if its own options allow the escape key; otherwise do
nothing. -/
def escapeKeyDown (m : ManagerState) : ManagerState × Option Nat :=
  match topRegistered m with
  | some (i, n) => if n.options.allowEscapeKey then closeN m i else (m, none)
  | none => (m, none)

/-- The document-level backdrop-click handler (lines 133-140): close the
top map entry, only if its own options allow outside clicks. -/
def outsideClick (m : ManagerState) : ManagerState × Option Nat :=
  match topRegistered m with
  | some (i, n) => if n.options.allowOutsideClick then closeN m i else (m, none)
  | none => (m, none)

/-- Error code of a JS TypeError raised by calling a non-function. -/
def jsTypeError : Nat := 1

/-- Invocation of `manager.queue(options)` (exported at line 887).  The
constructor assigns the array field `this.queue = []` (line 31); this own
data property shadows the prototype method `queue(options)` (lines
234-237), so the property lookup yields the Array and the call throws a
TypeError before any statement of the method body runs.  The state is
unchanged. -/
def enqueueCall (m : ManagerState) (_opts : Options) : ManagerState × Option Nat :=
  (m, some jsTypeError)

/-- NotificationManager.processQueue (lines 239-249): no-op when already
processing or the queue array is empty; otherwise set `isProcessing`, shift
the front request, fire it, and attach a `.then` continuation — with no
rejection handler — to the returned promise (`pendingCont`).  If fire
throws, no continuation is attached and the exception propagates. -/
def processQueue (m : ManagerState) : ManagerState × Option Nat :=
  if m.isProcessing || m.queueArr.isEmpty then (m, none)
  else
    match m.queueArr with
    | [] => (m, none)
    | opts :: rest =>
      let m1 := { m with isProcessing := true, queueArr := rest }
      let f := fire m1 opts
      match f.2.2 with
      | some e => (f.1, some e)
      | none => ({ f.1 with pendingCont := some f.2.1 }, none)

/-- The drain continuation attached in processQueue (lines 245-248)
running: it is a `.then` callback, so it is invoked only once the watched
promise is resolved — never on rejection; it resets `isProcessing` and
drains again. -/
def continuationRun (m : ManagerState) : ManagerState × Option Nat :=
  match m.pendingCont with
  | some i =>
    match getNotif m i with
    | some n =>
      match n.promise with
      | .resolvedWith _ => processQueue { m with pendingCont := none, isProcessing := false }
      | _ => (m, none)
    | none => (m, none)
  | none => (m, none)

/-- Every callback the event loop can deliver to the subsystem. -/
inductive Event
  | fireE (opts : Options)
  | confirmE (i : Nat)
  | denyE (i : Nat)
  | preConfirmSettleE (i : Nat)
  | preDenySettleE (i : Nat)
  | closeE (i : Nat)
  | timerExpireE (i : Nat)
  | destroyTimeoutE (i : Nat)
  | escapeE
  | outsideClickE
  | enqueueE (opts : Options)
  | processQueueE
  | continuationE
deriving DecidableEq, Repr

/-- One event-loop turn. -/
def step (m : ManagerState) (ev : Event) : ManagerState × Option Nat :=
  match ev with
  | .fireE opts => let f := fire m opts; (f.1, f.2.2)
  | .confirmE i => confirmN m i
  | .denyE i => denyN m i
  | .preConfirmSettleE i => preConfirmSettle m i
  | .preDenySettleE i => preDenySettle m i
  | .closeE i => closeN m i
  | .timerExpireE i => timerExpire m i
  | .destroyTimeoutE i => destroyTimeoutFire m i
  | .escapeE => escapeKeyDown m
  | .outsideClickE => outsideClick m
  | .enqueueE opts => enqueueCall m opts
  | .processQueueE => processQueue m
  | .continuationE => continuationRun m

/-- Run a sequence of event-loop turns, keeping the resulting states. -/
def runTrace (m : ManagerState) (evs : List Event) : ManagerState :=
  evs.foldl (fun s ev => (step s ev).1) m

/-- The promise of the instance at a creation index, when it exists. -/
def promiseAt (m : ManagerState) (i : Nat) : Option PromiseState :=
  (getNotif m i).map (fun n => n.promise)

/-- The four non-instance fields of the manager (queue array, processing
flag, attached drain continuation, bound). -/
def scalars (m : ManagerState) : List Options × Bool × Option Nat × Nat :=
  (m.queueArr, m.isProcessing, m.pendingCont, m.maxNotifications)

/-- Six successive fire calls with the default option bag, from the just
constructed manager. -/
def sixFires : ManagerState := runTrace initialManager (List.replicate 6 (.fireE {}))

/-- Five successive default fire calls. -/
def fiveFires : ManagerState := runTrace initialManager (List.replicate 5 (.fireE {}))

/-- Seven successive default fire calls, all within the 300 ms animation
window of the first eviction. -/
def sevenFires : ManagerState := runTrace initialManager (List.replicate 7 (.fireE {}))

/-- Six successive fire calls with the closing animation disabled. -/
def sixFiresNoAnim : ManagerState :=
  runTrace initialManager (List.replicate 6 (.fireE { animation := false }))

/-- A drain of a two-entry queue whose first request carries a confirm
handler returning a Promise that is rejected with error 7: the entry is
fired, confirmed, and its deferred preConfirm result then fails.  (The
`queue` array field is a public property of the manager, so a caller can
populate it directly even though the `queue` method itself is
shadowed.) -/
def queueRejectState : ManagerState :=
  runTrace { initialManager with queueArr := [{ preConfirm := .deferred (.failure 7) }, {}] }
    [.processQueueE, .confirmE 0, .preConfirmSettleE 0]

/-- Two open notifications; the top (most recently inserted) one forbids
both the escape key and outside clicks. -/
def escTwoState : ManagerState :=
  runTrace initialManager
    [.fireE {}, .fireE { allowEscapeKey := false, allowOutsideClick := false }]

/-! ### Frame lemmas for the state helpers -/

lemma notifs_logHook (m : ManagerState) (i : Nat) (tag : HookTag) (h : Hook) :
    (logHook m i tag h).notifs = m.notifs := by
  unfold logHook; split <;> rfl

lemma getNotif_logHook (m : ManagerState) (i : Nat) (tag : HookTag) (h : Hook) (j : Nat) :
    getNotif (logHook m i tag h) j = getNotif m j := by
  unfold getNotif; rw [notifs_logHook]

lemma getNotif_lt (m : ManagerState) (j : Nat) (n : NotifState)
    (h : getNotif m j = some n) : j < m.notifs.length :=
  (List.getElem?_eq_some.mp h).1

lemma getNotif_setNotif_ne (m : ManagerState) (i j : Nat) (n : NotifState) (hne : i ≠ j) :
    getNotif (setNotif m i n) j = getNotif m j := by
  unfold getNotif setNotif
  exact List.getElem?_set_ne hne

lemma getNotif_setNotif_self (m : ManagerState) (i : Nat) (n n0 : NotifState)
    (h : getNotif m i = some n0) : getNotif (setNotif m i n) i = some n := by
  unfold getNotif setNotif
  exact List.getElem?_set_eq_of_lt n (getNotif_lt m i n0 h)

lemma scalars_logHook (m : ManagerState) (i : Nat) (tag : HookTag) (h : Hook) :
    scalars (logHook m i tag h) = scalars m := by
  unfold logHook; split <;> rfl

lemma scalars_setNotif (m : ManagerState) (i : Nat) (n : NotifState) :
    scalars (setNotif m i n) = scalars m := rfl

lemma scalars_destroyN (m : ManagerState) (i : Nat) :
    scalars (destroyN m i).1 = scalars m := by
  unfold destroyN
  split
  · rfl
  · dsimp only
    split
    · rw [scalars_logHook]
    · rw [scalars_logHook, scalars_setNotif, scalars_logHook]

lemma scalars_closeN (m : ManagerState) (i : Nat) :
    scalars (closeN m i).1 = scalars m := by
  unfold closeN
  split
  · rfl
  · dsimp only
    split
    · rfl
    · split
      · rw [scalars_logHook, scalars_setNotif]
      · split
        · rw [scalars_setNotif, scalars_logHook, scalars_setNotif]
        · rw [scalars_destroyN, scalars_setNotif, scalars_logHook, scalars_setNotif]

lemma scalars_timerExpire (m : ManagerState) (i : Nat) :
    scalars (timerExpire m i).1 = scalars m := by
  unfold timerExpire
  split
  · rfl
  · split
    · rw [scalars_closeN, scalars_setNotif]
    · rfl

lemma scalars_destroyTimeoutFire (m : ManagerState) (i : Nat) :
    scalars (destroyTimeoutFire m i).1 = scalars m := by
  unfold destroyTimeoutFire
  split
  · rfl
  · split
    · rw [scalars_destroyN, scalars_setNotif]
    · rfl

lemma scalars_confirmN (m : ManagerState) (i : Nat) :
    scalars (confirmN m i).1 = scalars m := by
  unfold confirmN
  split
  · rfl
  · split
    · rw [scalars_closeN, scalars_setNotif]
    · rw [scalars_closeN, scalars_setNotif]
    · rw [scalars_setNotif]

lemma scalars_denyN (m : ManagerState) (i : Nat) :
    scalars (denyN m i).1 = scalars m := by
  unfold denyN
  split
  · rfl
  · split
    · rw [scalars_closeN, scalars_setNotif]
    · rw [scalars_closeN, scalars_setNotif]
    · rw [scalars_setNotif]

lemma scalars_preConfirmSettle (m : ManagerState) (i : Nat) :
    scalars (preConfirmSettle m i).1 = scalars m := by
  unfold preConfirmSettle
  split
  · rfl
  · split
    · split
      · rw [scalars_closeN, scalars_setNotif]
      · rw [scalars_setNotif]
      · rfl
    · rfl

lemma scalars_preDenySettle (m : ManagerState) (i : Nat) :
    scalars (preDenySettle m i).1 = scalars m := by
  unfold preDenySettle
  split
  · rfl
  · split
    · split
      · rw [scalars_closeN, scalars_setNotif]
      · rw [scalars_setNotif]
      · rfl
    · rfl

lemma scalars_escapeKeyDown (m : ManagerState) :
    scalars (escapeKeyDown m).1 = scalars m := by
  unfold escapeKeyDown
  split
  · split
    · rw [scalars_closeN]
    · rfl
  · rfl

lemma scalars_outsideClick (m : ManagerState) :
    scalars (outsideClick m).1 = scalars m := by
  unfold outsideClick
  split
  · split
    · rw [scalars_closeN]
    · rfl
  · rfl

lemma scalars_fire (m : ManagerState) (opts : Options) :
    scalars (fire m opts).1 = scalars m := by
  unfold fire
  dsimp only
  split
  · rw [scalars_logHook]; rfl
  · split
    · rw [scalars_logHook, scalars_logHook]; rfl
    · split
      · rw [scalars_logHook, scalars_setNotif, scalars_logHook, scalars_logHook]; rfl
      · split
        · split
          · dsimp only
            rw [scalars_closeN, scalars_setNotif, scalars_logHook, scalars_setNotif,
              scalars_logHook, scalars_logHook]
            rfl
          · rw [scalars_setNotif, scalars_logHook, scalars_setNotif, scalars_logHook,
              scalars_logHook]
            rfl
        · rw [scalars_setNotif, scalars_logHook, scalars_setNotif, scalars_logHook,
            scalars_logHook]
          rfl

/-! ### Promise-field preservation -/

lemma PromiseState.resolveJS_of_settled (p : PromiseState) (o : Outcome) (h : p ≠ .pending) :
    p.resolveJS o = p := by
  cases p
  · exact absurd rfl h
  · rfl
  · rfl

lemma PromiseState.rejectJS_of_settled (p : PromiseState) (e : Nat) (h : p ≠ .pending) :
    p.rejectJS e = p := by
  cases p
  · exact absurd rfl h
  · rfl
  · rfl

lemma promiseAt_logHook (m : ManagerState) (i : Nat) (tag : HookTag) (h : Hook) (j : Nat) :
    promiseAt (logHook m i tag h) j = promiseAt m j := by
  unfold promiseAt; rw [getNotif_logHook]

lemma promiseAt_setNotif_keep (m : ManagerState) (i : Nat) (n n0 : NotifState)
    (h : getNotif m i = some n0) (hp : n.promise = n0.promise) (j : Nat) :
    promiseAt (setNotif m i n) j = promiseAt m j := by
  unfold promiseAt
  by_cases hj : i = j
  · subst hj
    rw [getNotif_setNotif_self m i n n0 h, h]
    simp [hp]
  · rw [getNotif_setNotif_ne m i j n hj]

lemma promiseAt_destroyN (m : ManagerState) (i j : Nat) :
    promiseAt (destroyN m i).1 j = promiseAt m j := by
  unfold destroyN
  split
  · rfl
  · rename_i n heq
    dsimp only
    split
    · rw [promiseAt_logHook]
    · rw [promiseAt_logHook,
        promiseAt_setNotif_keep (logHook m i .didClose n.options.didClose) i
          ({ n with inRegistry := false }) n
          (by rw [getNotif_logHook]; exact heq) rfl,
        promiseAt_logHook]

lemma promiseAt_closeN (m : ManagerState) (i j : Nat) :
    promiseAt (closeN m i).1 j = promiseAt m j := by
  unfold closeN
  split
  · rfl
  · rename_i n heq
    dsimp only
    split
    · rfl
    · split
      · rw [promiseAt_logHook,
          promiseAt_setNotif_keep m i ({ n with isClosing := true }) n heq rfl]
      · split
        · rw [promiseAt_setNotif_keep
              (logHook (setNotif m i { n with isClosing := true }) i .willClose n.options.willClose) i
              ({ n with isClosing := true, timerArmed := false, pendingDestroy := true })
              ({ n with isClosing := true })
              (by rw [getNotif_logHook]
                  exact getNotif_setNotif_self m i ({ n with isClosing := true }) n heq) rfl,
            promiseAt_logHook,
            promiseAt_setNotif_keep m i ({ n with isClosing := true }) n heq rfl]
        · rw [promiseAt_destroyN,
            promiseAt_setNotif_keep
              (logHook (setNotif m i { n with isClosing := true }) i .willClose n.options.willClose) i
              ({ n with isClosing := true, timerArmed := false })
              ({ n with isClosing := true })
              (by rw [getNotif_logHook]
                  exact getNotif_setNotif_self m i ({ n with isClosing := true }) n heq) rfl,
            promiseAt_logHook,
            promiseAt_setNotif_keep m i ({ n with isClosing := true }) n heq rfl]

lemma promiseAt_timerExpire (m : ManagerState) (i j : Nat) :
    promiseAt (timerExpire m i).1 j = promiseAt m j := by
  unfold timerExpire
  split
  · rfl
  · rename_i n heq
    split
    · rw [promiseAt_closeN,
        promiseAt_setNotif_keep m i ({ n with timerArmed := false }) n heq rfl]
    · rfl

lemma promiseAt_destroyTimeoutFire (m : ManagerState) (i j : Nat) :
    promiseAt (destroyTimeoutFire m i).1 j = promiseAt m j := by
  unfold destroyTimeoutFire
  split
  · rfl
  · rename_i n heq
    split
    · rw [promiseAt_destroyN,
        promiseAt_setNotif_keep m i ({ n with pendingDestroy := false }) n heq rfl]
    · rfl

lemma promiseAt_escapeKeyDown (m : ManagerState) (j : Nat) :
    promiseAt (escapeKeyDown m).1 j = promiseAt m j := by
  unfold escapeKeyDown
  split
  · split
    · rw [promiseAt_closeN]
    · rfl
  · rfl

lemma promiseAt_outsideClick (m : ManagerState) (j : Nat) :
    promiseAt (outsideClick m).1 j = promiseAt m j := by
  unfold outsideClick
  split
  · split
    · rw [promiseAt_closeN]
    · rfl
  · rfl

lemma promiseAt_closeN_setNotif_ne (m : ManagerState) (i j : Nat) (n1 : NotifState)
    (hne : i ≠ j) : promiseAt (closeN (setNotif m i n1) i).1 j = promiseAt m j := by
  rw [promiseAt_closeN]
  unfold promiseAt
  rw [getNotif_setNotif_ne m i j n1 hne]

lemma promiseAt_confirmN_settled (m : ManagerState) (i j : Nat) (p : PromiseState)
    (hp : promiseAt m j = some p) (hs : p ≠ .pending) :
    promiseAt (confirmN m i).1 j = some p := by
  unfold confirmN
  split
  · exact hp
  · rename_i n heq
    have hself : i = j → n.promise = p := by
      intro hij
      subst hij
      unfold promiseAt at hp
      rw [heq] at hp
      simpa using hp
    split
    · by_cases hj : i = j
      · rw [promiseAt_closeN,
          promiseAt_setNotif_keep m i
            ({ n with promise := n.promise.resolveJS { isConfirmed := true } }) n heq
            (by show n.promise.resolveJS _ = n.promise
                rw [hself hj]
                exact PromiseState.resolveJS_of_settled p _ hs)]
        exact hp
      · rw [promiseAt_closeN_setNotif_ne m i j _ hj]; exact hp
    · rename_i v _
      by_cases hj : i = j
      · rw [promiseAt_closeN,
          promiseAt_setNotif_keep m i
            ({ n with promise := n.promise.resolveJS { isConfirmed := true, value := v } }) n heq
            (by show n.promise.resolveJS _ = n.promise
                rw [hself hj]
                exact PromiseState.resolveJS_of_settled p _ hs)]
        exact hp
      · rw [promiseAt_closeN_setNotif_ne m i j _ hj]; exact hp
    · dsimp only
      rw [promiseAt_setNotif_keep m i ({ n with awaitingPreConfirm := true }) n heq rfl]
      exact hp

lemma promiseAt_denyN_settled (m : ManagerState) (i j : Nat) (p : PromiseState)
    (hp : promiseAt m j = some p) (hs : p ≠ .pending) :
    promiseAt (denyN m i).1 j = some p := by
  unfold denyN
  split
  · exact hp
  · rename_i n heq
    have hself : i = j → n.promise = p := by
      intro hij
      subst hij
      unfold promiseAt at hp
      rw [heq] at hp
      simpa using hp
    split
    · by_cases hj : i = j
      · rw [promiseAt_closeN,
          promiseAt_setNotif_keep m i
            ({ n with promise := n.promise.resolveJS { isDenied := true } }) n heq
            (by show n.promise.resolveJS _ = n.promise
                rw [hself hj]
                exact PromiseState.resolveJS_of_settled p _ hs)]
        exact hp
      · rw [promiseAt_closeN_setNotif_ne m i j _ hj]; exact hp
    · rename_i v _
      by_cases hj : i = j
      · rw [promiseAt_closeN,
          promiseAt_setNotif_keep m i
            ({ n with promise := n.promise.resolveJS { isDenied := true, value := v } }) n heq
            (by show n.promise.resolveJS _ = n.promise
                rw [hself hj]
                exact PromiseState.resolveJS_of_settled p _ hs)]
        exact hp
      · rw [promiseAt_closeN_setNotif_ne m i j _ hj]; exact hp
    · dsimp only
      rw [promiseAt_setNotif_keep m i ({ n with awaitingPreDeny := true }) n heq rfl]
      exact hp

lemma promiseAt_preConfirmSettle_settled (m : ManagerState) (i j : Nat) (p : PromiseState)
    (hp : promiseAt m j = some p) (hs : p ≠ .pending) :
    promiseAt (preConfirmSettle m i).1 j = some p := by
  unfold preConfirmSettle
  split
  · exact hp
  · rename_i n heq
    have hself : i = j → n.promise = p := by
      intro hij
      subst hij
      unfold promiseAt at hp
      rw [heq] at hp
      simpa using hp
    split
    · split
      · rename_i v _
        by_cases hj : i = j
        · rw [promiseAt_closeN,
            promiseAt_setNotif_keep m i
              ({ n with awaitingPreConfirm := false,
                        promise := n.promise.resolveJS { isConfirmed := true, value := v } }) n heq
              (by show n.promise.resolveJS _ = n.promise
                  rw [hself hj]
                  exact PromiseState.resolveJS_of_settled p _ hs)]
          exact hp
        · rw [promiseAt_closeN_setNotif_ne m i j _ hj]; exact hp
      · rename_i e _
        dsimp only
        by_cases hj : i = j
        · rw [promiseAt_setNotif_keep m i
              ({ n with awaitingPreConfirm := false, promise := n.promise.rejectJS e }) n heq
              (by show n.promise.rejectJS _ = n.promise
                  rw [hself hj]
                  exact PromiseState.rejectJS_of_settled p _ hs)]
          exact hp
        · unfold promiseAt
          rw [getNotif_setNotif_ne m i j _ hj]
          exact hp
      · exact hp
    · exact hp

lemma promiseAt_preDenySettle_settled (m : ManagerState) (i j : Nat) (p : PromiseState)
    (hp : promiseAt m j = some p) (hs : p ≠ .pending) :
    promiseAt (preDenySettle m i).1 j = some p := by
  unfold preDenySettle
  split
  · exact hp
  · rename_i n heq
    have hself : i = j → n.promise = p := by
      intro hij
      subst hij
      unfold promiseAt at hp
      rw [heq] at hp
      simpa using hp
    split
    · split
      · rename_i v _
        by_cases hj : i = j
        · rw [promiseAt_closeN,
            promiseAt_setNotif_keep m i
              ({ n with awaitingPreDeny := false,
                        promise := n.promise.resolveJS { isDenied := true, value := v } }) n heq
              (by show n.promise.resolveJS _ = n.promise
                  rw [hself hj]
                  exact PromiseState.resolveJS_of_settled p _ hs)]
          exact hp
        · rw [promiseAt_closeN_setNotif_ne m i j _ hj]; exact hp
      · rename_i e _
        dsimp only
        by_cases hj : i = j
        · rw [promiseAt_setNotif_keep m i
              ({ n with awaitingPreDeny := false, promise := n.promise.rejectJS e }) n heq
              (by show n.promise.rejectJS _ = n.promise
                  rw [hself hj]
                  exact PromiseState.rejectJS_of_settled p _ hs)]
          exact hp
        · unfold promiseAt
          rw [getNotif_setNotif_ne m i j _ hj]
          exact hp
      · exact hp
    · exact hp

lemma promiseAt_append (m : ManagerState) (n0 : NotifState) (j : Nat)
    (hj : j < m.notifs.length) :
    promiseAt { m with notifs := m.notifs ++ [n0] } j = promiseAt m j := by
  unfold promiseAt getNotif
  dsimp only
  rw [List.getElem?_append, if_pos hj]

lemma getNotif_append_self (m : ManagerState) (n0 : NotifState) :
    getNotif { m with notifs := m.notifs ++ [n0] } m.notifs.length = some n0 := by
  unfold getNotif
  dsimp only
  rw [List.getElem?_concat_length]

lemma promiseAt_fire (m : ManagerState) (opts : Options) (j : Nat)
    (hj : j < m.notifs.length) :
    promiseAt (fire m opts).1 j = promiseAt m j := by
  have h0 : getNotif { m with notifs := m.notifs ++ [({ options := opts } : NotifState)] }
      m.notifs.length = some { options := opts } := getNotif_append_self m _
  have h2 : getNotif
      (logHook (logHook { m with notifs := m.notifs ++ [({ options := opts } : NotifState)] }
        m.notifs.length .didRender opts.didRender) m.notifs.length .willOpen opts.willOpen)
      m.notifs.length = some { options := opts } := by
    rw [getNotif_logHook, getNotif_logHook]; exact h0
  have h4 : getNotif
      (logHook (setNotif
        (logHook (logHook { m with notifs := m.notifs ++ [({ options := opts } : NotifState)] }
          m.notifs.length .didRender opts.didRender) m.notifs.length .willOpen opts.willOpen)
        m.notifs.length
        { options := opts, isOpen := true, timerArmed := timerTruthy opts })
        m.notifs.length .didOpen opts.didOpen)
      m.notifs.length
      = some { options := opts, isOpen := true, timerArmed := timerTruthy opts } := by
    rw [getNotif_logHook]
    exact getNotif_setNotif_self _ _ _ _ h2
  unfold fire
  dsimp only
  split
  · rw [promiseAt_logHook, promiseAt_append m _ j hj]
  · split
    · rw [promiseAt_logHook, promiseAt_logHook, promiseAt_append m _ j hj]
    · split
      · rw [promiseAt_logHook,
          promiseAt_setNotif_keep _ m.notifs.length
            ({ options := opts, isOpen := true, timerArmed := timerTruthy opts }) ({ options := opts })
            h2 rfl,
          promiseAt_logHook, promiseAt_logHook, promiseAt_append m _ j hj]
      · split
        · split
          · dsimp only
            rw [promiseAt_closeN,
              promiseAt_setNotif_keep _ m.notifs.length
                ({ options := opts, isOpen := true, timerArmed := timerTruthy opts,
                   inRegistry := true })
                ({ options := opts, isOpen := true, timerArmed := timerTruthy opts })
                h4 rfl,
              promiseAt_logHook,
              promiseAt_setNotif_keep _ m.notifs.length
                ({ options := opts, isOpen := true, timerArmed := timerTruthy opts })
                ({ options := opts }) h2 rfl,
              promiseAt_logHook, promiseAt_logHook, promiseAt_append m _ j hj]
          · rw [promiseAt_setNotif_keep _ m.notifs.length
                ({ options := opts, isOpen := true, timerArmed := timerTruthy opts,
                   inRegistry := true })
                ({ options := opts, isOpen := true, timerArmed := timerTruthy opts })
                h4 rfl,
              promiseAt_logHook,
              promiseAt_setNotif_keep _ m.notifs.length
                ({ options := opts, isOpen := true, timerArmed := timerTruthy opts })
                ({ options := opts }) h2 rfl,
              promiseAt_logHook, promiseAt_logHook, promiseAt_append m _ j hj]
        · rw [promiseAt_setNotif_keep _ m.notifs.length
              ({ options := opts, isOpen := true, timerArmed := timerTruthy opts,
                 inRegistry := true })
              ({ options := opts, isOpen := true, timerArmed := timerTruthy opts })
              h4 rfl,
            promiseAt_logHook,
            promiseAt_setNotif_keep _ m.notifs.length
              ({ options := opts, isOpen := true, timerArmed := timerTruthy opts })
              ({ options := opts }) h2 rfl,
            promiseAt_logHook, promiseAt_logHook, promiseAt_append m _ j hj]

lemma promiseAt_fire_of_some (m : ManagerState) (opts : Options) (j : Nat) (n : NotifState)
    (h : getNotif m j = some n) :
    promiseAt (fire m opts).1 j = promiseAt m j :=
  promiseAt_fire m opts j (getNotif_lt m j n h)

lemma promiseAt_processQueue_settled (m : ManagerState) (j : Nat) (p : PromiseState)
    (hp : promiseAt m j = some p) :
    promiseAt (processQueue m).1 j = some p := by
  unfold processQueue
  split
  · exact hp
  · split
    · exact hp
    · rename_i opts rest heq
      dsimp only
      have hn : ∃ n, getNotif { m with isProcessing := true, queueArr := rest } j = some n := by
        have : ∃ n, getNotif m j = some n := by
          unfold promiseAt at hp
          rcases Option.map_eq_some'.mp hp with ⟨n, hn, _⟩
          exact ⟨n, hn⟩
        exact this
      rcases hn with ⟨n, hn⟩
      split
      · rw [promiseAt_fire_of_some { m with isProcessing := true, queueArr := rest } opts j n hn]
        exact hp
      · show promiseAt { (fire { m with isProcessing := true, queueArr := rest } opts).1
          with pendingCont := some (fire { m with isProcessing := true, queueArr := rest } opts).2.1 } j = some p
        have : promiseAt { (fire { m with isProcessing := true, queueArr := rest } opts).1
            with pendingCont := some (fire { m with isProcessing := true, queueArr := rest } opts).2.1 } j
            = promiseAt (fire { m with isProcessing := true, queueArr := rest } opts).1 j := rfl
        rw [this, promiseAt_fire_of_some { m with isProcessing := true, queueArr := rest } opts j n hn]
        exact hp

lemma promiseAt_continuationRun_settled (m : ManagerState) (j : Nat) (p : PromiseState)
    (hp : promiseAt m j = some p) :
    promiseAt (continuationRun m).1 j = some p := by
  unfold continuationRun
  split
  · rename_i i _
    split
    · split
      · exact promiseAt_processQueue_settled _ j p hp
      · exact hp
    · exact hp
  · exact hp

/-- Settled promises are terminal: no event-loop turn ever changes the value
of an already settled completion promise — a promise settles at most
once. -/
lemma promiseAt_step_settled (m : ManagerState) (ev : Event) (i : Nat) (p : PromiseState)
    (hp : promiseAt m i = some p) (hs : p ≠ .pending) :
    promiseAt (step m ev).1 i = some p := by
  cases ev with
  | fireE opts =>
    have hn : ∃ n, getNotif m i = some n := by
      unfold promiseAt at hp
      rcases Option.map_eq_some'.mp hp with ⟨n, hn, _⟩
      exact ⟨n, hn⟩
    rcases hn with ⟨n, hn⟩
    show promiseAt (fire m opts).1 i = some p
    rw [promiseAt_fire_of_some m opts i n hn]
    exact hp
  | confirmE k => exact promiseAt_confirmN_settled m k i p hp hs
  | denyE k => exact promiseAt_denyN_settled m k i p hp hs
  | preConfirmSettleE k => exact promiseAt_preConfirmSettle_settled m k i p hp hs
  | preDenySettleE k => exact promiseAt_preDenySettle_settled m k i p hp hs
  | closeE k => show promiseAt (closeN m k).1 i = some p; rw [promiseAt_closeN]; exact hp
  | timerExpireE k =>
    show promiseAt (timerExpire m k).1 i = some p
    rw [promiseAt_timerExpire]; exact hp
  | destroyTimeoutE k =>
    show promiseAt (destroyTimeoutFire m k).1 i = some p
    rw [promiseAt_destroyTimeoutFire]; exact hp
  | escapeE => show promiseAt (escapeKeyDown m).1 i = some p; rw [promiseAt_escapeKeyDown]; exact hp
  | outsideClickE =>
    show promiseAt (outsideClick m).1 i = some p
    rw [promiseAt_outsideClick]; exact hp
  | enqueueE opts => exact hp
  | processQueueE => exact promiseAt_processQueue_settled m i p hp
  | continuationE => exact promiseAt_continuationRun_settled m i p hp

/-! ### Frame lemmas for close, and queue-path lemmas -/

lemma getNotif_destroyN_ne (m : ManagerState) (i j : Nat) (hne : i ≠ j) :
    getNotif (destroyN m i).1 j = getNotif m j := by
  unfold destroyN
  split
  · rfl
  · rename_i n heq
    dsimp only
    split
    · rw [getNotif_logHook]
    · rw [getNotif_logHook, getNotif_setNotif_ne _ i j _ hne, getNotif_logHook]

lemma getNotif_closeN_ne (m : ManagerState) (i j : Nat) (hne : i ≠ j) :
    getNotif (closeN m i).1 j = getNotif m j := by
  unfold closeN
  split
  · rfl
  · rename_i n heq
    dsimp only
    split
    · rfl
    · split
      · rw [getNotif_logHook, getNotif_setNotif_ne _ i j _ hne]
      · split
        · rw [getNotif_setNotif_ne _ i j _ hne, getNotif_logHook,
            getNotif_setNotif_ne _ i j _ hne]
        · rw [getNotif_destroyN_ne _ i j hne, getNotif_setNotif_ne _ i j _ hne,
            getNotif_logHook, getNotif_setNotif_ne _ i j _ hne]

lemma queueArr_eq_of_scalars {m m' : ManagerState} (h : scalars m' = scalars m) :
    m'.queueArr = m.queueArr := congrArg Prod.fst h

lemma isProcessing_eq_of_scalars {m m' : ManagerState} (h : scalars m' = scalars m) :
    m'.isProcessing = m.isProcessing := congrArg (fun t => t.2.1) h

lemma pendingCont_eq_of_scalars {m m' : ManagerState} (h : scalars m' = scalars m) :
    m'.pendingCont = m.pendingCont := congrArg (fun t => t.2.2.1) h

lemma processQueue_of_empty (m : ManagerState) (h : m.queueArr = []) :
    processQueue m = (m, none) := by
  simp [processQueue, h]

lemma processQueue_of_processing (m : ManagerState) (h : m.isProcessing = true) :
    processQueue m = (m, none) := by
  simp [processQueue, h]

lemma scalars_step_other (m : ManagerState) (ev : Event)
    (hev : ∀ opts, ev ≠ .enqueueE opts) (hev2 : ev ≠ .processQueueE)
    (hev3 : ev ≠ .continuationE) :
    scalars (step m ev).1 = scalars m := by
  cases ev with
  | fireE opts => exact scalars_fire m opts
  | confirmE k => exact scalars_confirmN m k
  | denyE k => exact scalars_denyN m k
  | preConfirmSettleE k => exact scalars_preConfirmSettle m k
  | preDenySettleE k => exact scalars_preDenySettle m k
  | closeE k => exact scalars_closeN m k
  | timerExpireE k => exact scalars_timerExpire m k
  | destroyTimeoutE k => exact scalars_destroyTimeoutFire m k
  | escapeE => exact scalars_escapeKeyDown m
  | outsideClickE => exact scalars_outsideClick m
  | enqueueE opts => exact absurd rfl (hev opts)
  | processQueueE => exact absurd rfl hev2
  | continuationE => exact absurd rfl hev3

lemma queueArr_step_of_empty (m : ManagerState) (ev : Event) (h : m.queueArr = []) :
    (step m ev).1.queueArr = [] := by
  cases ev with
  | enqueueE opts => exact h
  | processQueueE =>
    show (processQueue m).1.queueArr = []
    rw [processQueue_of_empty m h]
    exact h
  | continuationE =>
    show (continuationRun m).1.queueArr = []
    unfold continuationRun
    split
    · split
      · split
        · rw [processQueue_of_empty { m with pendingCont := none, isProcessing := false } h]
          exact h
        · exact h
      · exact h
    · exact h
  | fireE opts =>
    show (fire m opts).1.queueArr = []
    rw [queueArr_eq_of_scalars (scalars_fire m opts)]; exact h
  | confirmE k =>
    show (confirmN m k).1.queueArr = []
    rw [queueArr_eq_of_scalars (scalars_confirmN m k)]; exact h
  | denyE k =>
    show (denyN m k).1.queueArr = []
    rw [queueArr_eq_of_scalars (scalars_denyN m k)]; exact h
  | preConfirmSettleE k =>
    show (preConfirmSettle m k).1.queueArr = []
    rw [queueArr_eq_of_scalars (scalars_preConfirmSettle m k)]; exact h
  | preDenySettleE k =>
    show (preDenySettle m k).1.queueArr = []
    rw [queueArr_eq_of_scalars (scalars_preDenySettle m k)]; exact h
  | closeE k =>
    show (closeN m k).1.queueArr = []
    rw [queueArr_eq_of_scalars (scalars_closeN m k)]; exact h
  | timerExpireE k =>
    show (timerExpire m k).1.queueArr = []
    rw [queueArr_eq_of_scalars (scalars_timerExpire m k)]; exact h
  | destroyTimeoutE k =>
    show (destroyTimeoutFire m k).1.queueArr = []
    rw [queueArr_eq_of_scalars (scalars_destroyTimeoutFire m k)]; exact h
  | escapeE =>
    show (escapeKeyDown m).1.queueArr = []
    rw [queueArr_eq_of_scalars (scalars_escapeKeyDown m)]; exact h
  | outsideClickE =>
    show (outsideClick m).1.queueArr = []
    rw [queueArr_eq_of_scalars (scalars_outsideClick m)]; exact h

lemma queueArr_runTrace_of_empty (evs : List Event) (m : ManagerState)
    (h : m.queueArr = []) : (runTrace m evs).queueArr = [] := by
  induction evs generalizing m with
  | nil => exact h
  | cons ev evs ih =>
    show (runTrace (step m ev).1 evs).queueArr = []
    exact ih (step m ev).1 (queueArr_step_of_empty m ev h)

/-! ### Unfolding equations for per-instance operations at a present index -/

lemma destroyN_eq (m : ManagerState) (i : Nat) (n : NotifState)
    (heq : getNotif m i = some n) :
    destroyN m i =
      (let m1 := logHook m i .didClose n.options.didClose
       if hookThrows n.options.didClose then (m1, some 0)
       else
         let m2 := setNotif m1 i { n with inRegistry := false }
         let m3 := logHook m2 i .didDestroy n.options.didDestroy
         (m3, if hookThrows n.options.didDestroy then some 0 else none)) := by
  unfold destroyN
  rw [heq]

lemma closeN_eq (m : ManagerState) (i : Nat) (n : NotifState)
    (heq : getNotif m i = some n) :
    closeN m i =
      (if n.isClosing || !n.isOpen then (m, none)
       else
         let m1 := logHook (setNotif m i { n with isClosing := true }) i .willClose
           n.options.willClose
         if hookThrows n.options.willClose then (m1, some 0)
         else
           if n.options.animation then
             (setNotif m1 i
                { n with isClosing := true, timerArmed := false, pendingDestroy := true },
              none)
           else
             destroyN (setNotif m1 i { n with isClosing := true, timerArmed := false }) i) := by
  unfold closeN
  rw [heq]

lemma timerExpire_eq (m : ManagerState) (i : Nat) (n : NotifState)
    (heq : getNotif m i = some n) :
    timerExpire m i =
      (if n.timerArmed then closeN (setNotif m i { n with timerArmed := false }) i
       else (m, none)) := by
  unfold timerExpire
  rw [heq]

lemma destroyTimeoutFire_eq (m : ManagerState) (i : Nat) (n : NotifState)
    (heq : getNotif m i = some n) :
    destroyTimeoutFire m i =
      (if n.pendingDestroy then destroyN (setNotif m i { n with pendingDestroy := false }) i
       else (m, none)) := by
  unfold destroyTimeoutFire
  rw [heq]

lemma confirmN_eq (m : ManagerState) (i : Nat) (n : NotifState)
    (heq : getNotif m i = some n) :
    confirmN m i =
      (match n.options.preConfirm with
       | .noPre =>
         closeN (setNotif m i { n with promise := n.promise.resolveJS { isConfirmed := true } }) i
       | .sync v =>
         closeN (setNotif m i
           { n with promise := n.promise.resolveJS { isConfirmed := true, value := v } }) i
       | .deferred _ =>
         (setNotif m i { n with awaitingPreConfirm := true }, none)) := by
  unfold confirmN
  rw [heq]

lemma denyN_eq (m : ManagerState) (i : Nat) (n : NotifState)
    (heq : getNotif m i = some n) :
    denyN m i =
      (match n.options.preDeny with
       | .noPre =>
         closeN (setNotif m i { n with promise := n.promise.resolveJS { isDenied := true } }) i
       | .sync v =>
         closeN (setNotif m i
           { n with promise := n.promise.resolveJS { isDenied := true, value := v } }) i
       | .deferred _ =>
         (setNotif m i { n with awaitingPreDeny := true }, none)) := by
  unfold denyN
  rw [heq]

lemma preConfirmSettle_eq (m : ManagerState) (i : Nat) (n : NotifState)
    (heq : getNotif m i = some n) :
    preConfirmSettle m i =
      (if n.awaitingPreConfirm then
         match n.options.preConfirm with
         | .deferred (.success v) =>
           closeN (setNotif m i
             { n with awaitingPreConfirm := false,
                      promise := n.promise.resolveJS { isConfirmed := true, value := v } }) i
         | .deferred (.failure e) =>
           (setNotif m i
              { n with awaitingPreConfirm := false, promise := n.promise.rejectJS e },
            none)
         | _ => (m, none)
       else (m, none)) := by
  unfold preConfirmSettle
  rw [heq]

lemma preDenySettle_eq (m : ManagerState) (i : Nat) (n : NotifState)
    (heq : getNotif m i = some n) :
    preDenySettle m i =
      (if n.awaitingPreDeny then
         match n.options.preDeny with
         | .deferred (.success v) =>
           closeN (setNotif m i
             { n with awaitingPreDeny := false,
                      promise := n.promise.resolveJS { isDenied := true, value := v } }) i
         | .deferred (.failure e) =>
           (setNotif m i
              { n with awaitingPreDeny := false, promise := n.promise.rejectJS e },
            none)
         | _ => (m, none)
       else (m, none)) := by
  unfold preDenySettle
  rw [heq]

lemma continuationRun_eq (m : ManagerState) (i : Nat) (h2 : m.pendingCont = some i) :
    continuationRun m =
      (match getNotif m i with
       | some n =>
         match n.promise with
         | .resolvedWith _ => processQueue { m with pendingCont := none, isProcessing := false }
         | _ => (m, none)
       | none => (m, none)) := by
  unfold continuationRun
  rw [h2]

lemma continuationRun_eq2 (m : ManagerState) (i : Nat) (n : NotifState)
    (h2 : m.pendingCont = some i) (hn : getNotif m i = some n) :
    continuationRun m =
      (match n.promise with
       | .resolvedWith _ => processQueue { m with pendingCont := none, isProcessing := false }
       | _ => (m, none)) := by
  rw [continuationRun_eq m i h2, hn]

lemma continuationRun_of_rejected (m : ManagerState) (i : Nat) (e : Nat)
    (h2 : m.pendingCont = some i) (h3 : promiseAt m i = some (.rejectedWith e)) :
    continuationRun m = (m, none) := by
  obtain ⟨n, hn, hpn⟩ : ∃ n, getNotif m i = some n ∧ n.promise = .rejectedWith e := by
    unfold promiseAt at h3
    rcases Option.map_eq_some'.mp h3 with ⟨n, hn, hp⟩
    exact ⟨n, hn, hp⟩
  rw [continuationRun_eq2 m i n h2 hn, hpn]

/-! ### Behaviour of confirm / deny / close on specific option shapes -/

lemma confirmN_noPre_resolves (m : ManagerState) (i : Nat) (n : NotifState)
    (heq : getNotif m i = some n) (hpre : n.options.preConfirm = .noPre)
    (hpend : n.promise = .pending) :
    promiseAt (confirmN m i).1 i = some (.resolvedWith { isConfirmed := true }) := by
  rw [confirmN_eq m i n heq, hpre]
  show promiseAt (closeN (setNotif m i
    { n with promise := n.promise.resolveJS { isConfirmed := true } }) i).1 i = _
  rw [promiseAt_closeN]
  unfold promiseAt
  rw [getNotif_setNotif_self m i _ n heq]
  show some (n.promise.resolveJS { isConfirmed := true }) = _
  rw [hpend]
  rfl

lemma confirmN_sync_resolves (m : ManagerState) (i : Nat) (n : NotifState) (v : Option Nat)
    (heq : getNotif m i = some n) (hpre : n.options.preConfirm = .sync v)
    (hpend : n.promise = .pending) :
    promiseAt (confirmN m i).1 i = some (.resolvedWith { isConfirmed := true, value := v }) := by
  rw [confirmN_eq m i n heq, hpre]
  show promiseAt (closeN (setNotif m i
    { n with promise := n.promise.resolveJS { isConfirmed := true, value := v } }) i).1 i = _
  rw [promiseAt_closeN]
  unfold promiseAt
  rw [getNotif_setNotif_self m i _ n heq]
  show some (n.promise.resolveJS { isConfirmed := true, value := v }) = _
  rw [hpend]
  rfl

lemma denyN_noPre_resolves (m : ManagerState) (i : Nat) (n : NotifState)
    (heq : getNotif m i = some n) (hpre : n.options.preDeny = .noPre)
    (hpend : n.promise = .pending) :
    promiseAt (denyN m i).1 i = some (.resolvedWith { isDenied := true }) := by
  rw [denyN_eq m i n heq, hpre]
  show promiseAt (closeN (setNotif m i
    { n with promise := n.promise.resolveJS { isDenied := true } }) i).1 i = _
  rw [promiseAt_closeN]
  unfold promiseAt
  rw [getNotif_setNotif_self m i _ n heq]
  show some (n.promise.resolveJS { isDenied := true }) = _
  rw [hpend]
  rfl

lemma closeN_noop_of_closing (m : ManagerState) (i : Nat) (n : NotifState)
    (heq : getNotif m i = some n) (hcl : n.isClosing = true) :
    closeN m i = (m, none) := by
  rw [closeN_eq m i n heq]
  rw [if_pos (show (n.isClosing || !n.isOpen) = true by rw [hcl]; rfl)]

lemma closeN_noop_of_notOpen (m : ManagerState) (i : Nat) (n : NotifState)
    (heq : getNotif m i = some n) (hop : n.isOpen = false) :
    closeN m i = (m, none) := by
  rw [closeN_eq m i n heq]
  rw [if_pos (show (n.isClosing || !n.isOpen) = true by
    rw [hop, Bool.not_false, Bool.or_true])]

lemma getNotif_destroyN_self (m : ManagerState) (i : Nat) (n : NotifState)
    (heq : getNotif m i = some n) :
    getNotif (destroyN m i).1 i = some n
    ∨ getNotif (destroyN m i).1 i = some { n with inRegistry := false } := by
  rw [destroyN_eq m i n heq]
  dsimp only
  split
  · left
    rw [getNotif_logHook]
    exact heq
  · right
    rw [getNotif_logHook]
    exact getNotif_setNotif_self _ i _ n (by rw [getNotif_logHook]; exact heq)

lemma closeN_isClosing_self (m : ManagerState) (i : Nat) (n : NotifState)
    (heq : getNotif m i = some n) (ho : n.isOpen = true) (hc : n.isClosing = false) :
    (getNotif (closeN m i).1 i).map (fun x => x.isClosing) = some true := by
  rw [closeN_eq m i n heq]
  rw [if_neg (show ¬((n.isClosing || !n.isOpen) = true) by rw [hc, ho]; decide)]
  dsimp only
  split
  · rw [getNotif_logHook, getNotif_setNotif_self m i ({ n with isClosing := true }) n heq]
    rfl
  · split
    · rw [getNotif_setNotif_self _ i
        ({ n with isClosing := true, timerArmed := false, pendingDestroy := true })
        ({ n with isClosing := true })
        (by rw [getNotif_logHook]
            exact getNotif_setNotif_self m i ({ n with isClosing := true }) n heq)]
      rfl
    · have hset := getNotif_setNotif_self
        (logHook (setNotif m i { n with isClosing := true }) i .willClose n.options.willClose) i
        ({ n with isClosing := true, timerArmed := false }) ({ n with isClosing := true })
        (by rw [getNotif_logHook]
            exact getNotif_setNotif_self m i ({ n with isClosing := true }) n heq)
      rcases getNotif_destroyN_self _ i _ hset with hd | hd <;> rw [hd] <;> rfl

lemma closeN_timer_cleared (m : ManagerState) (i : Nat) (n : NotifState)
    (heq : getNotif m i = some n) (ho : n.isOpen = true) (hc : n.isClosing = false)
    (hw : hookThrows n.options.willClose = false) :
    (getNotif (closeN m i).1 i).map (fun x => (x.isClosing, x.timerArmed))
      = some (true, false) := by
  rw [closeN_eq m i n heq]
  rw [if_neg (show ¬((n.isClosing || !n.isOpen) = true) by rw [hc, ho]; decide)]
  dsimp only
  rw [if_neg (show ¬(hookThrows n.options.willClose = true) by rw [hw]; decide)]
  split
  · rw [getNotif_setNotif_self _ i
      ({ n with isClosing := true, timerArmed := false, pendingDestroy := true })
      ({ n with isClosing := true })
      (by rw [getNotif_logHook]
          exact getNotif_setNotif_self m i ({ n with isClosing := true }) n heq)]
    rfl
  · have hset := getNotif_setNotif_self
      (logHook (setNotif m i { n with isClosing := true }) i .willClose n.options.willClose) i
      ({ n with isClosing := true, timerArmed := false }) ({ n with isClosing := true })
      (by rw [getNotif_logHook]
          exact getNotif_setNotif_self m i ({ n with isClosing := true }) n heq)
    rcases getNotif_destroyN_self _ i _ hset with hd | hd <;> rw [hd] <;> rfl

lemma escapeKeyDown_none (m : ManagerState) (htop : topRegistered m = none) :
    escapeKeyDown m = (m, none) := by
  unfold escapeKeyDown
  rw [htop]

lemma outsideClick_none (m : ManagerState) (htop : topRegistered m = none) :
    outsideClick m = (m, none) := by
  unfold outsideClick
  rw [htop]

lemma escapeKeyDown_eq (m : ManagerState) (i : Nat) (n : NotifState)
    (htop : topRegistered m = some (i, n)) :
    escapeKeyDown m = if n.options.allowEscapeKey then closeN m i else (m, none) := by
  unfold escapeKeyDown
  rw [htop]

lemma outsideClick_eq (m : ManagerState) (i : Nat) (n : NotifState)
    (htop : topRegistered m = some (i, n)) :
    outsideClick m = if n.options.allowOutsideClick then closeN m i else (m, none) := by
  unfold outsideClick
  rw [htop]

/-! ### Claim theorems -/

/-- C1, amended: a completion promise settles at most once — once settled,
no event-loop turn changes its value — and it settles only through the
confirm / deny paths: `close` itself, the timer-expiry close, the
escape-key close and the outside-click close never change any completion
promise, while a confirm on a pending instance with no preConfirm handler
resolves its promise with `{isConfirmed: true}` immediately before the
close is initiated.  (The claim's assertion that EVERY exit path settles
the signal is refuted by `c1_close_counterexample`.) -/
theorem c1_settlement_amended :
    (∀ (m : ManagerState) (ev : Event) (i : Nat) (p : PromiseState),
        promiseAt m i = some p → p ≠ .pending → promiseAt (step m ev).1 i = some p)
    ∧ (∀ (m : ManagerState) (i j : Nat), promiseAt (closeN m i).1 j = promiseAt m j)
    ∧ (∀ (m : ManagerState) (i j : Nat), promiseAt (timerExpire m i).1 j = promiseAt m j)
    ∧ (∀ (m : ManagerState) (j : Nat), promiseAt (escapeKeyDown m).1 j = promiseAt m j)
    ∧ (∀ (m : ManagerState) (j : Nat), promiseAt (outsideClick m).1 j = promiseAt m j)
    ∧ (∀ (m : ManagerState) (i : Nat) (n : NotifState), getNotif m i = some n →
        n.options.preConfirm = .noPre → n.promise = .pending →
        promiseAt (confirmN m i).1 i = some (.resolvedWith { isConfirmed := true })) :=
  ⟨fun m ev i p hp hs => promiseAt_step_settled m ev i p hp hs,
   fun m i j => promiseAt_closeN m i j,
   fun m i j => promiseAt_timerExpire m i j,
   fun m j => promiseAt_escapeKeyDown m j,
   fun m j => promiseAt_outsideClick m j,
   fun m i n heq hpre hpend => confirmN_noPre_resolves m i n heq hpre hpend⟩

/-- Witness for C1's amended theorem at the default-options instance 0:
after a confirm resolves the promise, a further event leaves it resolved,
and the confirm itself resolved it with `{isConfirmed: true}`. -/
theorem c1_settlement_witness :
    promiseAt (step (confirmN (fire initialManager {}).1 0).1 (.destroyTimeoutE 0)).1 0
      = some (.resolvedWith { isConfirmed := true })
    ∧ promiseAt (confirmN (fire initialManager {}).1 0).1 0
      = some (.resolvedWith { isConfirmed := true }) :=
  ⟨c1_settlement_amended.1 (confirmN (fire initialManager {}).1 0).1 (.destroyTimeoutE 0) 0
      (.resolvedWith { isConfirmed := true }) (by decide) (by decide),
   c1_settlement_amended.2.2.2.2.2 (fire initialManager {}).1 0
      { options := {}, isOpen := true, inRegistry := true } (by decide) rfl rfl⟩

/-- C1 counterexample: an explicit `close` on a freshly fired default
instance drives it into the closing state with its completion promise still
pending — the passive exit paths never settle the signal, contradicting the
claim that it settles on every exit path during the transition to
closing. -/
theorem c1_close_counterexample :
    promiseAt (closeN (fire initialManager {}).1 0).1 0 = some .pending
    ∧ (getNotif (closeN (fire initialManager {}).1 0).1 0).map (fun x => x.isClosing)
        = some true := by
  decide

/-- C2, amended: when an insertion exceeds the bound, `close` is invoked on
the first map entry, but the entry leaves the map only when its destroy
runs: five default fires keep the map at five entries, the sixth drives the
first into closing yet leaves SIX entries in the map until the scheduled
destroy timeout fires (restoring five); with the closing animation disabled
the destroy is synchronous and six fires keep the map at five. -/
theorem c2_bound_amended :
    registeredCount fiveFires = 5
    ∧ registeredCount sixFires = 6
    ∧ (getNotif sixFires 0).map (fun x => (x.isClosing, x.inRegistry, x.pendingDestroy))
        = some (true, true, true)
    ∧ registeredCount (destroyTimeoutFire sixFires 0).1 = 5
    ∧ registeredCount sixFiresNoAnim = 5 := by
  decide

/-- C2 counterexample: after the sixth default fire the registry map holds
six entries while the bound is five — the claim that the mapping never
exceeds `maxInstances` fails with the default (animated) options. -/
theorem c2_bound_counterexample :
    sixFires.maxNotifications = 5 ∧ registeredCount sixFires = 6 := by
  decide

/-- C3, amended: eviction always targets the first map entry, whether or
not it is already closing.  After six default fires from empty the first
map entry is the first-submitted, still-open instance and it is driven to
closing while the five younger ones stay open; a seventh fire inside the
animation window targets index 0 again — a closing entry, so the close is
a no-op and no still-open instance is evicted. -/
theorem c3_eviction_amended :
    oldestRegistered sixFires = some 0
    ∧ (getNotif sixFires 0).map (fun x => x.isClosing) = some true
    ∧ (List.range 5).map (fun k => (getNotif sixFires (k + 1)).map (fun x => x.isClosing))
        = List.replicate 5 (some false)
    ∧ oldestRegistered sevenFires = some 0 := by
  decide

/-- C3 counterexample: on the seventh rapid default fire the bound is
exceeded (seven map entries), the close target is the already-closing entry
0, and the earliest still-open instance (index 1) is NOT driven to closing
— refuting the claim that the evicted instance is always the earliest
still-open one. -/
theorem c3_eviction_counterexample :
    registeredCount sevenFires = 7
    ∧ (getNotif sevenFires 0).map (fun x => x.isClosing) = some true
    ∧ (getNotif sevenFires 1).map (fun x => x.isClosing) = some false := by
  decide

/-- C4: the queue path is dead code.  Invoking `manager.queue(options)`
throws a TypeError without touching the state, because the constructor's
array field `this.queue` shadows the method of the same name; consequently,
starting from any state with an empty queue array (the constructed manager
in particular), no sequence of event-loop turns ever enqueues a request, so
the claimed FIFO admission of queued requests never takes place. -/
theorem c4_queue_method_unreachable :
    (∀ (m : ManagerState) (opts : Options), enqueueCall m opts = (m, some jsTypeError))
    ∧ (∀ (m : ManagerState) (evs : List Event), m.queueArr = [] →
        (runTrace m evs).queueArr = []) :=
  ⟨fun _ _ => rfl, fun m evs h => queueArr_runTrace_of_empty evs m h⟩

/-- Witness for C4 at the constructed manager and a concrete event
sequence containing an enqueue attempt. -/
theorem c4_queue_witness :
    enqueueCall initialManager {} = (initialManager, some jsTypeError)
    ∧ (runTrace initialManager
        [.enqueueE {}, .fireE {}, .processQueueE, .continuationE]).queueArr = [] :=
  ⟨c4_queue_method_unreachable.1 initialManager {},
   c4_queue_method_unreachable.2 initialManager
    [.enqueueE {}, .fireE {}, .processQueueE, .continuationE] rfl⟩

lemma inv_of_scalars (m m' : ManagerState) (i : Nat)
    (hs : scalars m' = scalars m) (h1 : m.isProcessing = true) (h2 : m.pendingCont = some i) :
    m'.isProcessing = true ∧ m'.pendingCont = some i ∧ m'.queueArr = m.queueArr :=
  ⟨by rw [isProcessing_eq_of_scalars hs]; exact h1,
   by rw [pendingCont_eq_of_scalars hs]; exact h2,
   queueArr_eq_of_scalars hs⟩

/-- C5, amended: the drain continuation is attached with `.then` and no
rejection handler, so it runs only when the watched completion promise is
RESOLVED.  Once a queued entry's completion promise is rejected while the
drain is processing, the state is stuck: every event-loop turn leaves
`isProcessing` set, the attached continuation in place, the promise
rejected, and the queue array unchanged — the drain never continues to the
next entry. -/
theorem c5_rejection_halts_drain :
    ∀ (m : ManagerState) (ev : Event) (i e : Nat),
      m.isProcessing = true → m.pendingCont = some i →
      promiseAt m i = some (.rejectedWith e) →
      (step m ev).1.isProcessing = true
      ∧ (step m ev).1.pendingCont = some i
      ∧ promiseAt (step m ev).1 i = some (.rejectedWith e)
      ∧ (step m ev).1.queueArr = m.queueArr := by
  intro m ev i e h1 h2 h3
  have hset : promiseAt (step m ev).1 i = some (.rejectedWith e) :=
    promiseAt_step_settled m ev i _ h3 (fun hh => PromiseState.noConfusion hh)
  cases ev with
  | enqueueE opts => exact ⟨h1, h2, hset, rfl⟩
  | processQueueE =>
    have hpq : processQueue m = (m, none) := processQueue_of_processing m h1
    exact ⟨by show (processQueue m).1.isProcessing = true; rw [hpq]; exact h1,
      by show (processQueue m).1.pendingCont = some i; rw [hpq]; exact h2,
      hset,
      by show (processQueue m).1.queueArr = m.queueArr; rw [hpq]⟩
  | continuationE =>
    have hcr : continuationRun m = (m, none) := continuationRun_of_rejected m i e h2 h3
    exact ⟨by show (continuationRun m).1.isProcessing = true; rw [hcr]; exact h1,
      by show (continuationRun m).1.pendingCont = some i; rw [hcr]; exact h2,
      hset,
      by show (continuationRun m).1.queueArr = m.queueArr; rw [hcr]⟩
  | fireE opts =>
    obtain ⟨a, b, c⟩ := inv_of_scalars m (fire m opts).1 i (scalars_fire m opts) h1 h2
    exact ⟨a, b, hset, c⟩
  | confirmE k =>
    obtain ⟨a, b, c⟩ := inv_of_scalars m (confirmN m k).1 i (scalars_confirmN m k) h1 h2
    exact ⟨a, b, hset, c⟩
  | denyE k =>
    obtain ⟨a, b, c⟩ := inv_of_scalars m (denyN m k).1 i (scalars_denyN m k) h1 h2
    exact ⟨a, b, hset, c⟩
  | preConfirmSettleE k =>
    obtain ⟨a, b, c⟩ :=
      inv_of_scalars m (preConfirmSettle m k).1 i (scalars_preConfirmSettle m k) h1 h2
    exact ⟨a, b, hset, c⟩
  | preDenySettleE k =>
    obtain ⟨a, b, c⟩ :=
      inv_of_scalars m (preDenySettle m k).1 i (scalars_preDenySettle m k) h1 h2
    exact ⟨a, b, hset, c⟩
  | closeE k =>
    obtain ⟨a, b, c⟩ := inv_of_scalars m (closeN m k).1 i (scalars_closeN m k) h1 h2
    exact ⟨a, b, hset, c⟩
  | timerExpireE k =>
    obtain ⟨a, b, c⟩ := inv_of_scalars m (timerExpire m k).1 i (scalars_timerExpire m k) h1 h2
    exact ⟨a, b, hset, c⟩
  | destroyTimeoutE k =>
    obtain ⟨a, b, c⟩ :=
      inv_of_scalars m (destroyTimeoutFire m k).1 i (scalars_destroyTimeoutFire m k) h1 h2
    exact ⟨a, b, hset, c⟩
  | escapeE =>
    obtain ⟨a, b, c⟩ := inv_of_scalars m (escapeKeyDown m).1 i (scalars_escapeKeyDown m) h1 h2
    exact ⟨a, b, hset, c⟩
  | outsideClickE =>
    obtain ⟨a, b, c⟩ := inv_of_scalars m (outsideClick m).1 i (scalars_outsideClick m) h1 h2
    exact ⟨a, b, hset, c⟩

/-- Witness for C5's amended theorem at the concrete rejected-drain state
and a drain attempt. -/
theorem c5_rejection_witness :
    (step queueRejectState .processQueueE).1.isProcessing = true
    ∧ (step queueRejectState .processQueueE).1.pendingCont = some 0
    ∧ promiseAt (step queueRejectState .processQueueE).1 0 = some (.rejectedWith 7)
    ∧ (step queueRejectState .processQueueE).1.queueArr = queueRejectState.queueArr :=
  c5_rejection_halts_drain queueRejectState .processQueueE 0 7 (by decide) (by decide)
    (by decide)

/-- C5 counterexample: after the first queued entry's confirm handler
rejects its deferred result, the completion promise is rejected, the
processing flag is still set, the second request is still queued, unfired,
and the drain continuation does NOT run — rejection neither resets the
flag nor lets draining continue, contrary to the claim. -/
theorem c5_rejection_counterexample :
    queueRejectState.isProcessing = true
    ∧ queueRejectState.pendingCont = some 0
    ∧ promiseAt queueRejectState 0 = some (.rejectedWith 7)
    ∧ queueRejectState.queueArr = [{}]
    ∧ queueRejectState.notifs.length = 1
    ∧ continuationRun queueRejectState = (queueRejectState, none) := by
  decide

/-- C6, amended: an explicit confirm resolves the outcome with exactly the
confirmed flag set (carrying the preConfirm handler's plain return value
when one is configured) and an explicit deny with exactly the denied flag
set — never both; but passive dismissal settles nothing: a timer-expiry
close never changes any completion promise, so `submit({timer: 100})` with
no user action leaves its promise pending forever (see
`c6_timer_counterexample`). -/
theorem c6_outcome_flags_amended :
    (∀ (m : ManagerState) (i : Nat) (n : NotifState) (v : Option Nat),
        getNotif m i = some n → n.options.preConfirm = .sync v → n.promise = .pending →
        promiseAt (confirmN m i).1 i
          = some (.resolvedWith { isConfirmed := true, isDenied := false, value := v }))
    ∧ (∀ (m : ManagerState) (i : Nat) (n : NotifState),
        getNotif m i = some n → n.options.preDeny = .noPre → n.promise = .pending →
        promiseAt (denyN m i).1 i
          = some (.resolvedWith { isConfirmed := false, isDenied := true, value := none }))
    ∧ (∀ (m : ManagerState) (i j : Nat), promiseAt (timerExpire m i).1 j = promiseAt m j) :=
  ⟨fun m i n v heq hpre hpend => confirmN_sync_resolves m i n v heq hpre hpend,
   fun m i n heq hpre hpend => denyN_noPre_resolves m i n heq hpre hpend,
   fun m i j => promiseAt_timerExpire m i j⟩

/-- Witness for C6's amended theorem at concrete instances. -/
theorem c6_outcome_witness :
    promiseAt (confirmN (fire initialManager { preConfirm := .sync (some 3) }).1 0).1 0
      = some (.resolvedWith { isConfirmed := true, isDenied := false, value := some 3 })
    ∧ promiseAt (denyN (fire initialManager {}).1 0).1 0
      = some (.resolvedWith { isConfirmed := false, isDenied := true, value := none })
    ∧ promiseAt (timerExpire (fire initialManager { timer := some 100 }).1 0).1 0
      = promiseAt (fire initialManager { timer := some 100 }).1 0 :=
  ⟨c6_outcome_flags_amended.1 (fire initialManager { preConfirm := .sync (some 3) }).1 0
      { options := { preConfirm := .sync (some 3) }, isOpen := true, inRegistry := true }
      (some 3) (by decide) rfl rfl,
   c6_outcome_flags_amended.2.1 (fire initialManager {}).1 0
      { options := {}, isOpen := true, inRegistry := true } (by decide) rfl rfl,
   c6_outcome_flags_amended.2.2 (fire initialManager { timer := some 100 }).1 0 0⟩

/-- C6 counterexample: a fire with `timer: 100` arms the auto-close timer,
and at expiry the instance is driven to closing with its completion promise
STILL PENDING — it does not resolve with `{confirmed: false, denied:
false}` as the claim states. -/
theorem c6_timer_counterexample :
    (getNotif (fire initialManager { timer := some 100 }).1 0).map
        (fun x => (x.timerArmed, x.isOpen)) = some (true, true)
    ∧ promiseAt (timerExpire (fire initialManager { timer := some 100 }).1 0).1 0
        = some .pending
    ∧ (getNotif (timerExpire (fire initialManager { timer := some 100 }).1 0).1 0).map
        (fun x => x.isClosing) = some true := by
  decide

/-- C7 (confirmed): when the confirm handler returns a Promise, the confirm
call only attaches a continuation — the completion promise stays pending
and the instance is not closed until the deferred result settles; if the
deferred result fails, the failure is propagated as a rejection of the
completion promise and the instance is NOT closed (it stays open); if it
succeeds, the completion promise resolves with `{isConfirmed: true, value}`
and the instance is driven to closing. -/
theorem c7_preconfirm_deferred :
    ∀ (m : ManagerState) (i : Nat) (n : NotifState) (fate : Fate),
      getNotif m i = some n → n.options.preConfirm = .deferred fate →
      n.promise = .pending → n.isOpen = true → n.isClosing = false →
      (promiseAt (confirmN m i).1 i = some .pending
        ∧ (getNotif (confirmN m i).1 i).map (fun x => x.isClosing) = some false)
      ∧ (∀ e, fate = .failure e →
          promiseAt (preConfirmSettle (confirmN m i).1 i).1 i = some (.rejectedWith e)
          ∧ (getNotif (preConfirmSettle (confirmN m i).1 i).1 i).map
              (fun x => (x.isClosing, x.isOpen)) = some (false, true))
      ∧ (∀ v, fate = .success v →
          promiseAt (preConfirmSettle (confirmN m i).1 i).1 i
            = some (.resolvedWith { isConfirmed := true, value := v })
          ∧ (getNotif (preConfirmSettle (confirmN m i).1 i).1 i).map
              (fun x => x.isClosing) = some true) := by
  intro m i n fate heq hpre hpend ho hc
  have hconf : confirmN m i = (setNotif m i { n with awaitingPreConfirm := true }, none) := by
    rw [confirmN_eq m i n heq, hpre]
  have hg1 : getNotif (confirmN m i).1 i = some { n with awaitingPreConfirm := true } := by
    rw [hconf]
    exact getNotif_setNotif_self m i ({ n with awaitingPreConfirm := true }) n heq
  refine ⟨⟨?_, ?_⟩, ?_, ?_⟩
  · unfold promiseAt
    rw [hg1]
    show some n.promise = _
    rw [hpend]
  · rw [hg1]
    show some n.isClosing = _
    rw [hc]
  · intro e hf
    subst hf
    have hps : preConfirmSettle (confirmN m i).1 i
        = (setNotif (confirmN m i).1 i
            { n with awaitingPreConfirm := false, promise := n.promise.rejectJS e }, none) := by
      rw [preConfirmSettle_eq (confirmN m i).1 i ({ n with awaitingPreConfirm := true }) hg1]
      rw [if_pos rfl]
      dsimp only
      rw [hpre]
    constructor
    · rw [hps]
      unfold promiseAt
      dsimp only
      rw [getNotif_setNotif_self (confirmN m i).1 i
        ({ n with awaitingPreConfirm := false, promise := n.promise.rejectJS e })
        ({ n with awaitingPreConfirm := true }) hg1]
      show some (n.promise.rejectJS e) = _
      rw [hpend]
      rfl
    · rw [hps]
      dsimp only
      rw [getNotif_setNotif_self (confirmN m i).1 i
        ({ n with awaitingPreConfirm := false, promise := n.promise.rejectJS e })
        ({ n with awaitingPreConfirm := true }) hg1]
      show some (n.isClosing, n.isOpen) = _
      rw [hc, ho]
  · intro v hf
    subst hf
    have hps : preConfirmSettle (confirmN m i).1 i
        = closeN (setNotif (confirmN m i).1 i
            { n with awaitingPreConfirm := false,
                     promise := n.promise.resolveJS { isConfirmed := true, value := v } }) i := by
      rw [preConfirmSettle_eq (confirmN m i).1 i ({ n with awaitingPreConfirm := true }) hg1]
      rw [if_pos rfl]
      dsimp only
      rw [hpre]
    constructor
    · rw [hps, promiseAt_closeN]
      unfold promiseAt
      rw [getNotif_setNotif_self (confirmN m i).1 i
        ({ n with awaitingPreConfirm := false,
                  promise := n.promise.resolveJS { isConfirmed := true, value := v } })
        ({ n with awaitingPreConfirm := true }) hg1]
      show some (n.promise.resolveJS { isConfirmed := true, value := v }) = _
      rw [hpend]
      rfl
    · rw [hps]
      exact closeN_isClosing_self
        (setNotif (confirmN m i).1 i
          { n with awaitingPreConfirm := false,
                   promise := n.promise.resolveJS { isConfirmed := true, value := v } }) i
        ({ n with awaitingPreConfirm := false,
                  promise := n.promise.resolveJS { isConfirmed := true, value := v } })
        (getNotif_setNotif_self (confirmN m i).1 i
          ({ n with awaitingPreConfirm := false,
                    promise := n.promise.resolveJS { isConfirmed := true, value := v } })
          ({ n with awaitingPreConfirm := true }) hg1)
        ho hc

/-- Witness for C7 at concrete instances whose confirm handlers return a
Promise rejected with 3, respectively fulfilled with 4. -/
theorem c7_preconfirm_witness :
    promiseAt (confirmN (fire initialManager { preConfirm := .deferred (.failure 3) }).1 0).1 0
      = some .pending
    ∧ promiseAt (preConfirmSettle
        (confirmN (fire initialManager { preConfirm := .deferred (.failure 3) }).1 0).1 0).1 0
      = some (.rejectedWith 3)
    ∧ promiseAt (preConfirmSettle
        (confirmN (fire initialManager { preConfirm := .deferred (.success (some 4)) }).1 0).1 0).1 0
      = some (.resolvedWith { isConfirmed := true, value := some 4 }) :=
  ⟨(c7_preconfirm_deferred (fire initialManager { preConfirm := .deferred (.failure 3) }).1 0
      { options := { preConfirm := .deferred (.failure 3) }, isOpen := true, inRegistry := true }
      (.failure 3) (by decide) rfl rfl rfl rfl).1.1,
   ((c7_preconfirm_deferred (fire initialManager { preConfirm := .deferred (.failure 3) }).1 0
      { options := { preConfirm := .deferred (.failure 3) }, isOpen := true, inRegistry := true }
      (.failure 3) (by decide) rfl rfl rfl rfl).2.1 3 rfl).1,
   ((c7_preconfirm_deferred (fire initialManager { preConfirm := .deferred (.success (some 4)) }).1 0
      { options := { preConfirm := .deferred (.success (some 4)) }, isOpen := true,
        inRegistry := true }
      (.success (some 4)) (by decide) rfl rfl rfl rfl).2.2 (some 4) rfl).1⟩

/-- C8, amended: lifecycle hooks are invoked synchronously at their
transitions with NO exception guard, so a throwing hook aborts the rest of
the transition and the exception propagates synchronously to the caller
(never into the completion promise): a throwing willClose on an open
instance still marks it closing and logs the hook invocation, but close
returns the exception with the timer not yet cleared and no destroy
arranged; a throwing willOpen makes the constructor (and hence fire) throw
before the instance is ever registered or opened. -/
theorem c8_hook_throw_amended :
    (∀ (m : ManagerState) (i : Nat) (n : NotifState),
        getNotif m i = some n → n.isOpen = true → n.isClosing = false →
        hookThrows n.options.willClose = true →
        (closeN m i).2 = some 0
        ∧ getNotif (closeN m i).1 i = some { n with isClosing := true }
        ∧ (closeN m i).1.log = m.log ++ [(i, .willClose)])
    ∧ (∀ (m : ManagerState) (opts : Options),
        hookThrows opts.didRender = false → hookThrows opts.willOpen = true →
        (fire m opts).2.2 = some 0
        ∧ (getNotif (fire m opts).1 m.notifs.length).map (fun x => (x.inRegistry, x.isOpen))
            = some (false, false)) := by
  constructor
  · intro m i n heq ho hc hwt
    have hres : closeN m i
        = (logHook (setNotif m i { n with isClosing := true }) i .willClose n.options.willClose,
           some 0) := by
      rw [closeN_eq m i n heq]
      rw [if_neg (show ¬((n.isClosing || !n.isOpen) = true) by rw [hc, ho]; decide)]
      dsimp only
      rw [if_pos hwt]
    have hpres : n.options.willClose.present = true := by
      have hwt2 := hwt
      simp only [hookThrows, Bool.and_eq_true] at hwt2
      exact hwt2.1
    refine ⟨by rw [hres], ?_, ?_⟩
    · rw [hres]
      dsimp only
      rw [getNotif_logHook]
      exact getNotif_setNotif_self m i ({ n with isClosing := true }) n heq
    · rw [hres]
      dsimp only
      unfold logHook
      rw [if_pos hpres]
      rfl
  · intro m opts h1 h2
    have hres : fire m opts
        = (logHook (logHook { m with notifs := m.notifs ++ [({ options := opts } : NotifState)] }
            m.notifs.length .didRender opts.didRender) m.notifs.length .willOpen opts.willOpen,
           m.notifs.length, some 0) := by
      unfold fire
      dsimp only
      rw [if_neg (show ¬(hookThrows opts.didRender = true) by rw [h1]; decide)]
      rw [if_pos h2]
    refine ⟨by rw [hres], ?_⟩
    rw [hres]
    dsimp only
    rw [getNotif_logHook, getNotif_logHook, getNotif_append_self]
    rfl

/-- Witness for C8's amended theorem at concrete instances with throwing
willClose respectively willOpen hooks. -/
theorem c8_hook_witness :
    (closeN (fire initialManager
        { timer := some 100, willClose := { present := true, throws := true } }).1 0).2 = some 0
    ∧ (closeN (fire initialManager
        { timer := some 100, willClose := { present := true, throws := true } }).1 0).1.log
      = (fire initialManager
          { timer := some 100, willClose := { present := true, throws := true } }).1.log
        ++ [(0, .willClose)]
    ∧ (fire initialManager { willOpen := { present := true, throws := true } }).2.2 = some 0 :=
  ⟨(c8_hook_throw_amended.1 (fire initialManager
      { timer := some 100, willClose := { present := true, throws := true } }).1 0
      { options := { timer := some 100, willClose := { present := true, throws := true } },
        isOpen := true, timerArmed := true, inRegistry := true }
      (by decide) rfl rfl rfl).1,
   (c8_hook_throw_amended.1 (fire initialManager
      { timer := some 100, willClose := { present := true, throws := true } }).1 0
      { options := { timer := some 100, willClose := { present := true, throws := true } },
        isOpen := true, timerArmed := true, inRegistry := true }
      (by decide) rfl rfl rfl).2.2,
   (c8_hook_throw_amended.2 initialManager
      { willOpen := { present := true, throws := true } } rfl rfl).1⟩

/-- C8 counterexample: a throwing willClose hook makes close propagate the
exception and abort the transition midway — the instance is marked closing
but its armed timer is NOT cleared and no destroy is arranged, refuting the
claim that a throwing hook cannot prevent the transition from completing
and that hook failures are swallowed. -/
theorem c8_hook_counterexample :
    (closeN (fire initialManager
        { timer := some 100, willClose := { present := true, throws := true } }).1 0).2 ≠ none
    ∧ (getNotif (closeN (fire initialManager
        { timer := some 100, willClose := { present := true, throws := true } }).1 0).1 0).map
        (fun x => (x.isClosing, x.timerArmed, x.pendingDestroy)) = some (true, true, false) := by
  decide

/-- C9, amended: calling close on an instance already in the closing state
(which destroyed instances remain in) or never opened is a complete no-op
— identical manager state, no hooks run, no error, no settlement — and on
a transition into closing whose willClose hook does not throw, the armed
auto-close timer is cleared.  (With a throwing willClose the timer survives
the transition: `c9_timer_counterexample`.) -/
theorem c9_close_idempotent_amended :
    ∀ (m : ManagerState) (i : Nat) (n : NotifState), getNotif m i = some n →
      (n.isClosing = true → closeN m i = (m, none))
      ∧ (n.isOpen = false → closeN m i = (m, none))
      ∧ (n.isOpen = true → n.isClosing = false → hookThrows n.options.willClose = false →
          (getNotif (closeN m i).1 i).map (fun x => (x.isClosing, x.timerArmed))
            = some (true, false)) :=
  fun m i n heq =>
    ⟨fun hcl => closeN_noop_of_closing m i n heq hcl,
     fun hop => closeN_noop_of_notOpen m i n heq hop,
     fun ho hc hw => closeN_timer_cleared m i n heq ho hc hw⟩

/-- Witness for C9's amended theorem: a second close on a closed instance
is a no-op, and the first close cleared the armed timer. -/
theorem c9_close_witness :
    closeN (closeN (fire initialManager { timer := some 100 }).1 0).1 0
      = ((closeN (fire initialManager { timer := some 100 }).1 0).1, none)
    ∧ (getNotif (closeN (fire initialManager { timer := some 100 }).1 0).1 0).map
        (fun x => (x.isClosing, x.timerArmed)) = some (true, false) :=
  ⟨(c9_close_idempotent_amended (closeN (fire initialManager { timer := some 100 }).1 0).1 0
      { options := { timer := some 100 }, isOpen := true, isClosing := true,
        pendingDestroy := true, inRegistry := true }
      (by decide)).1 rfl,
   (c9_close_idempotent_amended (fire initialManager { timer := some 100 }).1 0
      { options := { timer := some 100 }, isOpen := true, timerArmed := true,
        inRegistry := true }
      (by decide)).2.2 rfl rfl rfl⟩

/-- C9 counterexample: on a transition into closing whose willClose hook
throws, the auto-close timer is NOT cancelled (clearTimer is aborted by the
exception), refuting the claim that the timer is cancelled on ANY
transition into closing. -/
theorem c9_timer_counterexample :
    (getNotif (closeN (fire initialManager
        { timer := some 50, willClose := { present := true, throws := true } }).1 0).1 0).map
      (fun x => (x.isClosing, x.timerArmed)) = some (true, true) := by
  decide

/-- C10 (confirmed): the global escape-key and outside-click handlers act
only on the top (most recently inserted) map entry: they close it exactly
when its own options allow the interaction, do nothing at all when it
forbids it (or when the map is empty), and in every case leave every other
instance untouched. -/
theorem c10_top_only :
    ∀ (m : ManagerState),
      (topRegistered m = none → escapeKeyDown m = (m, none) ∧ outsideClick m = (m, none))
      ∧ (∀ (i : Nat) (n : NotifState), topRegistered m = some (i, n) →
          (n.options.allowEscapeKey = true → escapeKeyDown m = closeN m i)
          ∧ (n.options.allowEscapeKey = false → escapeKeyDown m = (m, none))
          ∧ (n.options.allowOutsideClick = true → outsideClick m = closeN m i)
          ∧ (n.options.allowOutsideClick = false → outsideClick m = (m, none))
          ∧ (∀ j, j ≠ i →
              getNotif (escapeKeyDown m).1 j = getNotif m j
              ∧ getNotif (outsideClick m).1 j = getNotif m j)) := by
  intro m
  constructor
  · intro htop
    exact ⟨escapeKeyDown_none m htop, outsideClick_none m htop⟩
  · intro i n htop
    refine ⟨?_, ?_, ?_, ?_, ?_⟩
    · intro hal
      rw [escapeKeyDown_eq m i n htop, if_pos hal]
    · intro hal
      rw [escapeKeyDown_eq m i n htop, if_neg (by rw [hal]; decide)]
    · intro hal
      rw [outsideClick_eq m i n htop, if_pos hal]
    · intro hal
      rw [outsideClick_eq m i n htop, if_neg (by rw [hal]; decide)]
    · intro j hj
      constructor
      · rw [escapeKeyDown_eq m i n htop]
        by_cases hal : n.options.allowEscapeKey = true
        · rw [if_pos hal]
          exact getNotif_closeN_ne m i j (Ne.symm hj)
        · rw [if_neg hal]
      · rw [outsideClick_eq m i n htop]
        by_cases hal : n.options.allowOutsideClick = true
        · rw [if_pos hal]
          exact getNotif_closeN_ne m i j (Ne.symm hj)
        · rw [if_neg hal]

/-- Witness for C10 at a two-instance registry whose top instance forbids
both interactions: neither handler changes anything, and the older instance
is untouched. -/
theorem c10_top_witness :
    escapeKeyDown escTwoState = (escTwoState, none)
    ∧ outsideClick escTwoState = (escTwoState, none)
    ∧ getNotif (escapeKeyDown escTwoState).1 0 = getNotif escTwoState 0 :=
  ⟨((c10_top_only escTwoState).2 1
      { options := { allowEscapeKey := false, allowOutsideClick := false },
        isOpen := true, inRegistry := true }
      (by decide)).2.1 rfl,
   ((c10_top_only escTwoState).2 1
      { options := { allowEscapeKey := false, allowOutsideClick := false },
        isOpen := true, inRegistry := true }
      (by decide)).2.2.2.1 rfl,
   (((c10_top_only escTwoState).2 1
      { options := { allowEscapeKey := false, allowOutsideClick := false },
        isOpen := true, inRegistry := true }
      (by decide)).2.2.2.2 0 (by decide)).1⟩
